import Mathlib

/-!
Verification development for the leave-tracker service.

The JavaScript/TypeScript source is shallowly embedded as pure Lean
functions.  Conventions used throughout:

- A JavaScript Date value is modelled by `Option Int`: `some ms` is a valid
  date holding `ms` milliseconds since the Unix epoch, `none` is an Invalid
  Date (NaN time value).  The runtime is assumed to be configured for UTC,
  so `setHours` (local time) coincides with UTC arithmetic.
- `new Date(string)` is modelled by `jsDateParse`, covering the ISO
  calendar-date form `YYYY-MM-DD` (parsed as UTC midnight) that this
  service exchanges; every other input string is modelled as invalid.
- ISO timestamp strings produced by `toISOString` are modelled by the
  instant they denote (an `Int` of epoch milliseconds), since rendering is
  injective and re-parsing such a string returns the same instant.
- Optional / possibly-absent JavaScript strings are `Option String`;
  JavaScript truthiness for them is `strTruthy` (absent and `""` are falsy).
-/

namespace LeaveTracker

/-- Truthiness of an optional JavaScript string: `undefined` and the empty
string are falsy, every other string is truthy. -/
def strTruthy : Option String → Bool
  | none => false
  | some s => s != ""

/-- Decimal digit test for a character. -/
def isDigitChar (c : Char) : Bool := '0' ≤ c && c ≤ '9'

/-- Numeric value of a decimal digit character. -/
def digitVal (c : Char) : Nat := c.toNat - 48

/-- Model of JavaScript `Number(string)` restricted to the forms reachable
in this code base: the empty string converts to `0`, a string of decimal
digits converts to its value, anything else is NaN (`none`). -/
def jsNumber (s : String) : Option Int :=
  match s.data with
  | [] => some 0
  | cs => if cs.all isDigitChar
      then some (Int.ofNat (cs.foldl (fun a c => a * 10 + digitVal c) 0))
      else none

/-- Splits a character list at every occurrence of `c`, as JavaScript
`String.prototype.split` does with a one-character separator. -/
def splitOnChar (c : Char) : List Char → List (List Char)
  | [] => [[]]
  | x :: xs =>
    if x = c then [] :: splitOnChar c xs
    else
      match splitOnChar c xs with
      | [] => [[x]]
      | y :: ys => (x :: y) :: ys

/-- Leap-year test of the proleptic Gregorian calendar. -/
def isLeapYear (y : Int) : Bool :=
  y % 4 = 0 && (y % 100 != 0 || y % 400 = 0)

/-- Number of days in a given month of a given year. -/
def daysInMonth (y m : Int) : Int :=
  if m = 2 then (if isLeapYear y then 29 else 28)
  else if m = 4 || m = 6 || m = 9 || m = 11 then 30
  else 31

/-- Days elapsed from 1970-01-01 to the civil date `y-m-d` (standard civil
calendar conversion, valid for all dates used here). -/
def daysFromCivil (y m d : Int) : Int :=
  let yy := if m ≤ 2 then y - 1 else y
  let era := Int.fdiv yy 400
  let yoe := yy - era * 400
  let doy := Int.fdiv (153 * (m + (if m > 2 then -3 else 9)) + 2) 5 + d - 1
  let doe := yoe * 365 + Int.fdiv yoe 4 - Int.fdiv yoe 100 + doy
  era * 146097 + doe - 719468

/-- Model of JavaScript `new Date(string).getTime()` for the ISO
calendar-date form `YYYY-MM-DD` (UTC midnight); other strings give an
Invalid Date (`none`). -/
def jsDateParse (s : String) : Option Int :=
  match s.data with
  | [y1, y2, y3, y4, '-', m1, m2, '-', d1, d2] =>
    if [y1, y2, y3, y4, m1, m2, d1, d2].all isDigitChar then
      let y : Int := Int.ofNat (((digitVal y1 * 10 + digitVal y2) * 10 + digitVal y3) * 10 + digitVal y4)
      let mo : Int := Int.ofNat (digitVal m1 * 10 + digitVal m2)
      let da : Int := Int.ofNat (digitVal d1 * 10 + digitVal d2)
      if 1 ≤ mo && mo ≤ 12 && 1 ≤ da && da ≤ daysInMonth y mo then
        some (86400000 * daysFromCivil y mo da)
      else none
    else none
  | _ => none

/-- Model of JavaScript `a < b` on two Date values: false if either side is
an Invalid Date (NaN comparison). -/
def jsLt : Option Int → Option Int → Bool
  | some a, some b => a < b
  | _, _ => false

/-- Model of JavaScript `a > b` on two Date values: false if either side is
an Invalid Date (NaN comparison). -/
def jsGt : Option Int → Option Int → Bool
  | some a, some b => a > b
  | _, _ => false

/-- Model of JavaScript `Date.prototype.setHours(h, m, sec, ms)` on a UTC
runtime: replaces the time-of-day components of the date.  An Invalid Date
input or NaN hour/minute yields an Invalid Date. -/
def jsSetHours (d : Option Int) (h m : Option Int) (sec msec : Int) : Option Int :=
  match d, h, m with
  | some dv, some hv, some mv =>
      some (86400000 * Int.fdiv dv 86400000 + hv * 3600000 + mv * 60000 + sec * 1000 + msec)
  | _, _, _ => none

/-- Model of `timeStr.split(":").map(Number)` destructured into the first
two entries: the hour and minute components (NaN as `none`; a missing
second entry, as for a string without a colon, is `none`). -/
def timeParts (t : String) : Option Int × Option Int :=
  match (splitOnChar ':' t.data).map (fun cs => jsNumber (String.mk cs)) with
  | [] => (none, none)
  | [h] => (h, none)
  | h :: m :: _ => (h, m)

/-! ## SHA-256 and base64url (model of `createHash("sha256")` and the
`base64url` digest encoding from `node:crypto`, used by `getLeaveId` in
`src/types.ts`).  Machine words are `Nat` values reduced modulo `2 ^ 32`
explicitly. -/

/-- Two to the power thirty-two, the word modulus of SHA-256. -/
def M32 : Nat := 4294967296

/-- Right rotation of a 32-bit word. -/
def rotr32 (x n : Nat) : Nat := ((x >>> n) ||| (x <<< (32 - n))) % M32

/-- Bitwise complement of a 32-bit word. -/
def not32 (x : Nat) : Nat := 4294967295 - x

/-- SHA-256 big sigma-0 function. -/
def bigSigma0 (x : Nat) : Nat := (rotr32 x 2 ^^^ rotr32 x 13) ^^^ rotr32 x 22

/-- SHA-256 big sigma-1 function. -/
def bigSigma1 (x : Nat) : Nat := (rotr32 x 6 ^^^ rotr32 x 11) ^^^ rotr32 x 25

/-- SHA-256 small sigma-0 function. -/
def smallSigma0 (x : Nat) : Nat := (rotr32 x 7 ^^^ rotr32 x 18) ^^^ (x >>> 3)

/-- SHA-256 small sigma-1 function. -/
def smallSigma1 (x : Nat) : Nat := (rotr32 x 17 ^^^ rotr32 x 19) ^^^ (x >>> 10)

/-- SHA-256 choice function. -/
def chOp (e f g : Nat) : Nat := (e &&& f) ^^^ (not32 e &&& g)

/-- SHA-256 majority function. -/
def majOp (a b c : Nat) : Nat := ((a &&& b) ^^^ (a &&& c)) ^^^ (b &&& c)

/-- The sixty-four SHA-256 round constants. -/
def sha256K : List Nat :=
  [1116352408, 1899447441, 3049323471, 3921009573,
   961987163, 1508970993, 2453635748, 2870763221,
   3624381080, 310598401, 607225278, 1426881987,
   1925078388, 2162078206, 2614888103, 3248222580,
   3835390401, 4022224774, 264347078, 604807628,
   770255983, 1249150122, 1555081692, 1996064986,
   2554220882, 2821834349, 2952996808, 3210313671,
   3336571891, 3584528711, 113926993, 338241895,
   666307205, 773529912, 1294757372, 1396182291,
   1695183700, 1986661051, 2177026350, 2456956037,
   2730485921, 2820302411, 3259730800, 3345764771,
   3516065817, 3600352804, 4094571909, 275423344,
   430227734, 506948616, 659060556, 883997877,
   958139571, 1322822218, 1537002063, 1747873779,
   1955562222, 2024104815, 2227730452, 2361852424,
   2428436474, 2756734187, 3204031479, 3329325298]

/-- Eight 32-bit hash state words. -/
structure Hash8 where
  h0 : Nat
  h1 : Nat
  h2 : Nat
  h3 : Nat
  h4 : Nat
  h5 : Nat
  h6 : Nat
  h7 : Nat
deriving Repr, DecidableEq

/-- Initial SHA-256 hash state. -/
def sha256Init : Hash8 :=
  ⟨1779033703, 3144134277, 1013904242, 2773480762, 1359893119, 2600822924, 528734635, 1541459225⟩

/-- Big-endian eight-byte encoding of a length in bits. -/
def lenBytes (n : Nat) : List Nat :=
  [(n >>> 56) % 256, (n >>> 48) % 256, (n >>> 40) % 256, (n >>> 32) % 256,
   (n >>> 24) % 256, (n >>> 16) % 256, (n >>> 8) % 256, n % 256]

/-- SHA-256 padding: append `0x80`, zeros to 56 mod 64, then the bit length. -/
def padMessage (msg : List Nat) : List Nat :=
  let L := msg.length
  msg ++ 128 :: List.replicate ((119 - L % 64) % 64) 0 ++ lenBytes (8 * L)

/-- Packs bytes into big-endian 32-bit words (four bytes per word). -/
def bytesToWords : List Nat → List Nat
  | a :: b :: c :: d :: rest => (((a * 256 + b) * 256 + c) * 256 + d) :: bytesToWords rest
  | _ => []

/-- Splits a byte list into 64-byte chunks; the first argument is fuel
bounding the number of chunks. -/
def toChunks : Nat → List Nat → List (List Nat)
  | 0, _ => []
  | _, [] => []
  | n + 1, l => l.take 64 :: toChunks n (l.drop 64)

/-- Extends a 16-word message schedule by the given number of words using
the SHA-256 recurrence. -/
def extendSchedule : Nat → List Nat → List Nat
  | 0, w => w
  | n + 1, w =>
    let i := w.length
    let nw := (smallSigma1 (w.getD (i - 2) 0) + w.getD (i - 7) 0
               + smallSigma0 (w.getD (i - 15) 0) + w.getD (i - 16) 0) % M32
    extendSchedule n (w ++ [nw])

/-- One SHA-256 compression round for a round constant paired with a
schedule word. -/
def compressStep (st : Hash8) (kw : Nat × Nat) : Hash8 :=
  let t1 := (st.h7 + bigSigma1 st.h4 + chOp st.h4 st.h5 st.h6 + kw.1 + kw.2) % M32
  let t2 := (bigSigma0 st.h0 + majOp st.h0 st.h1 st.h2) % M32
  ⟨(t1 + t2) % M32, st.h0, st.h1, st.h2, (st.h3 + t1) % M32, st.h4, st.h5, st.h6⟩

/-- Processes one 64-byte chunk into the running hash state. -/
def processChunk (st : Hash8) (chunk : List Nat) : Hash8 :=
  let w := extendSchedule 48 (bytesToWords chunk)
  let f := (sha256K.zip w).foldl compressStep st
  ⟨(st.h0 + f.h0) % M32, (st.h1 + f.h1) % M32, (st.h2 + f.h2) % M32, (st.h3 + f.h3) % M32,
   (st.h4 + f.h4) % M32, (st.h5 + f.h5) % M32, (st.h6 + f.h6) % M32, (st.h7 + f.h7) % M32⟩

/-- Big-endian byte decomposition of one 32-bit word. -/
def wordBytes (w : Nat) : List Nat :=
  [(w >>> 24) % 256, (w >>> 16) % 256, (w >>> 8) % 256, w % 256]

/-- The 32-byte digest of a final hash state. -/
def digestBytes (h : Hash8) : List Nat :=
  wordBytes h.h0 ++ wordBytes h.h1 ++ wordBytes h.h2 ++ wordBytes h.h3 ++
  wordBytes h.h4 ++ wordBytes h.h5 ++ wordBytes h.h6 ++ wordBytes h.h7

/-- SHA-256 digest (32 bytes) of a byte list. -/
def sha256 (msg : List Nat) : List Nat :=
  let padded := padMessage msg
  digestBytes ((toChunks (padded.length / 64 + 1) padded).foldl processChunk sha256Init)

/-- The base64url alphabet (RFC 4648 section 5). -/
def b64Alphabet : List Char :=
  "ABCDEFGHIJKLMNOPQRSTUVWXYZabcdefghijklmnopqrstuvwxyz0123456789-_".data

/-- The base64url character for a six-bit value. -/
def b64Char (n : Nat) : Char := b64Alphabet.getD n 'A'

/-- Unpadded base64url character stream of a byte list (the `base64url`
digest encoding of `node:crypto`). -/
def b64Chars : List Nat → List Char
  | [] => []
  | [a] => [b64Char (a >>> 2), b64Char ((a % 4) <<< 4)]
  | [a, b] => [b64Char (a >>> 2), b64Char (((a % 4) <<< 4) ||| (b >>> 4)), b64Char ((b % 16) <<< 2)]
  | a :: b :: c :: rest =>
      b64Char (a >>> 2) :: b64Char (((a % 4) <<< 4) ||| (b >>> 4)) ::
      b64Char (((b % 16) <<< 2) ||| (c >>> 6)) :: b64Char (c % 64) :: b64Chars rest

/-- Unpadded base64url encoding of a byte list as a string. -/
def base64urlEncode (bytes : List Nat) : String := String.mk (b64Chars bytes)

/-- UTF-8 byte encoding of one character. -/
def utf8Char (c : Char) : List Nat :=
  let n := c.toNat
  if n < 128 then [n]
  else if n < 2048 then [192 + n / 64, 128 + n % 64]
  else if n < 65536 then [224 + n / 4096, 128 + (n / 64) % 64, 128 + n % 64]
  else [240 + n / 262144, 128 + (n / 4096) % 64, 128 + (n / 64) % 64, 128 + n % 64]

/-- UTF-8 byte encoding of a string (the default encoding of
`hash.update`). -/
def utf8Bytes (s : String) : List Nat := s.data.flatMap utf8Char

/-- Decimal digit characters of a natural number; the first argument is
fuel (any value above the digit count works). -/
def natDecimalAux : Nat → Nat → List Char
  | 0, _ => []
  | _ + 1, 0 => []
  | fuel + 1, n => natDecimalAux fuel (n / 10) ++ [Char.ofNat (48 + n % 10)]

/-- Decimal rendering of a natural number. -/
def natDecimal (n : Nat) : String :=
  if n = 0 then "0" else String.mk (natDecimalAux (n + 1) n)

/-- Decimal rendering of an integer, as JavaScript renders an integral
number value in a template literal. -/
def intDecimal : Int → String
  | .ofNat n => natDecimal n
  | .negSucc n => "-" ++ natDecimal (n + 1)

/-- Rendering of a Date time value in a template literal: the millisecond
count for a valid date, the string `NaN` for an Invalid Date. -/
def jsNumString : Option Int → String
  | some v => intDecimal v
  | none => "NaN"

/-- Model of `getLeaveId` from `src/types.ts`: the SHA-256 digest, in
unpadded base64url, of `applicantId-fromMs-toMs`, prefixed with `LEAVE#`.
The two Date arguments are represented by their `getTime()` values. -/
def getLeaveId (applicantId : String) (fromMs toMs : Option Int) : String :=
  "LEAVE#" ++ base64urlEncode (sha256 (utf8Bytes
    (applicantId ++ "-" ++ jsNumString fromMs ++ "-" ++ jsNumString toMs)))

/-! ## Validation helpers (model of `src/helpers.ts`) -/

/-- Model of `validateDate` from `src/helpers.ts`: the string parses to a
valid Date. -/
def validateDate (s : String) : Bool := (jsDateParse s).isSome

/-- Pair of minute digits check for the HH:MM pattern. -/
def minutePairOk (a b : Char) : Bool := ('0' ≤ a && a ≤ '5') && isDigitChar b

/-- Model of `validateTime` from `src/helpers.ts`: the 24-hour `HH:MM`
regular expression `([0-1]?\d|2[0-3]):([0-5]\d)` anchored at both ends. -/
def validateTime (s : String) : Bool :=
  match s.data with
  | [h, ':', a, b] => isDigitChar h && minutePairOk a b
  | [h1, h2, ':', a, b] =>
      (((h1 = '0' || h1 = '1') && isDigitChar h2)
        || (h1 = '2' && ('0' ≤ h2 && h2 ≤ '3'))) && minutePairOk a b
  | _ => false

/-- Result of one validation rule: a validity flag and an optional
diagnostic message. -/
structure VResult where
  valid : Bool
  message : Option String := none
deriving Repr, DecidableEq

/-- Model of `validateDateAndFormat` from `src/helpers.ts`: date format
first, then `fromTime` format, then `toTime` format. -/
def validateDateAndFormat (fromS toS : String) (fromTime toTime : Option String) : VResult :=
  if !validateDate fromS || !validateDate toS then
    ⟨false, some "Invalid date format ex: (MM/DD/YYYY), (YYYY-MM-DD)"⟩
  else if strTruthy fromTime && !validateTime (fromTime.getD "") then
    ⟨false, some "Invalid fromTime format. Expected HH:MM in 24-hour format."⟩
  else if strTruthy toTime && !validateTime (toTime.getD "") then
    ⟨false, some "Invalid toTime format. Expected HH:MM in 24-hour format."⟩
  else ⟨true, none⟩

/-- Model of `buildDateTime` from `src/helpers.ts`: parse the date, then
set the time of day from the time string when one is given, else to start
of day, or end of day when `defaultToEnd` is set. -/
def buildDateTime (dateStr : String) (timeStr : Option String) (defaultToEnd : Bool) : Option Int :=
  if strTruthy timeStr then
    let hm := timeParts (timeStr.getD "")
    jsSetHours (jsDateParse dateStr) hm.1 hm.2 0 0
  else if defaultToEnd then
    jsSetHours (jsDateParse dateStr) (some 23) (some 59) 59 999
  else
    jsSetHours (jsDateParse dateStr) (some 0) (some 0) 0 0

/-- Model of `validateFromToOrder` from `src/helpers.ts`. -/
def validateFromToOrder (fromS toS : String) (fromTime toTime : Option String) : VResult :=
  if !strTruthy fromTime && !strTruthy toTime then
    if jsGt (buildDateTime fromS none false) (buildDateTime toS none false) then
      ⟨false, some "from date cannot be later than to date"⟩
    else ⟨true, none⟩
  else
    if jsGt (buildDateTime fromS fromTime false) (buildDateTime toS toTime true) then
      if strTruthy fromTime && !strTruthy toTime then
        ⟨false, some "from date and time cannot be later than to date"⟩
      else if !strTruthy fromTime && strTruthy toTime then
        ⟨false, some "from date cannot be later than to date and time"⟩
      else
        ⟨false, some "from date and time cannot be later than to date and time"⟩
    else ⟨true, none⟩

/-- Model of `validateNotPast` from `src/helpers.ts`: when a truthy
`fromTime` is given, first compare the date combined with that time
against now; then, in every case, also compare the date-only value
against now. -/
def validateNotPast (fromS : String) (fromTime : Option String) (now : Int) : VResult :=
  if strTruthy fromTime
      && jsLt (jsSetHours (jsDateParse fromS)
                (timeParts (fromTime.getD "")).1 (timeParts (fromTime.getD "")).2 0 0)
              (some now) then
    ⟨false, some "from date and time cannot be in the past"⟩
  else if jsLt (jsDateParse fromS) (some now) then
    ⟨false, some "from date and time cannot be in the past"⟩
  else ⟨true, none⟩

/-- Model of `validateDateInputs` from `src/helpers.ts`: runs the three
rule groups in order and returns the first failing result. -/
def validateDateInputs (fromS toS : String) (fromTime toTime : Option String) (now : Int) : VResult :=
  let validations := [validateDateAndFormat fromS toS fromTime toTime,
                      validateFromToOrder fromS toS fromTime toTime,
                      validateNotPast fromS fromTime now]
  match validations.find? (fun r => !r.valid) with
  | some r => r
  | none => ⟨true, none⟩

/-! ## Data model (model of `src/types.ts`) -/

/-- Model of the persisted `Leave` record from `src/types.ts`.  The
`fromDate`/`toDate`/`appliedOn` ISO strings are represented by the instant
they denote; `task_token` is the attribute later attached by the
notification handler. -/
structure LeaveItem where
  leaveId : String
  fromDate : Option Int
  toDate : Option Int
  reason : String
  status : String
  appliedOn : Int
  applicantId : String
  applicantName : String
  task_token : Option String := none
deriving Repr, DecidableEq

/-- The DynamoDB attribute names present on a stored `Leave` item (the
fields written by the `Leave` constructor, plus `task_token` when it has
been attached). -/
def leaveItemAttrNames (it : LeaveItem) : List String :=
  ["leaveId", "fromDate", "toDate", "reason", "status", "appliedOn",
   "applicantId", "applicantName"]
  ++ (match it.task_token with | some _ => ["task_token"] | none => [])

/-- An HTTP-style response: status code, message, optional error detail
(model of `ResponseObj` bodies from `src/types.ts`). -/
structure Resp where
  statusCode : Nat
  message : String
  error : Option String := none
deriving Repr, DecidableEq

/-! ## Submission handler (model of the `leave_generate` handler) -/

/-- The fields destructured from the parsed JSON request body in the
`leave_generate` handler (`from`, `to`, `reason`, `fromTime`, `toTime`,
the last three defaulting to the empty string). -/
structure SubmitInput where
  fromS : String
  toS : String
  reason : String := ""
  fromTime : String := ""
  toTime : String := ""
deriving Repr, DecidableEq

/-- The initial payload handed to `StartExecutionCommand`: the literal
type tag, the computed timeout, and the spread of the new leave record. -/
structure StartPayload where
  type : String
  timeoutSecondsForRequest : Option Int
  item : LeaveItem
deriving Repr, DecidableEq

/-- Observable outcome of one submission: the HTTP response, the items
written by accepted `PutCommand`s, and the saga executions started. -/
structure SubmitOutcome where
  response : Resp
  puts : List LeaveItem
  starts : List StartPayload
deriving Repr, DecidableEq

/-- DynamoDB semantics of the `PutCommand` condition
`attribute_not_exists(#leaveId)`: the write is rejected exactly when an
item already exists under the same primary key and that item carries an
attribute whose name is the string substituted for `#leaveId`. -/
def putRejected (store : String → Option LeaveItem) (item : LeaveItem) (condAttrName : String) : Bool :=
  match store item.leaveId with
  | none => false
  | some old => (leaveItemAttrNames old).contains condAttrName

/-- Model of `Math.floor((to.getTime() - from.getTime()) / 1000)` on two
Date values (NaN result for an Invalid Date input). -/
def jsTimeoutSeconds (fromMs toMs : Option Int) : Option Int :=
  match fromMs, toMs with
  | some a, some b => some (Int.fdiv (b - a) 1000)
  | _, _ => none

/-- Model of the submission handler in `src/functions/leave_generate.ts`,
from the point where the JSON body has been parsed.  `userId`/`userName`
come from the request authorizer, `store` is the current content of the
leave table, `now` is the clock reading for `new Date()`.  Note that the
`ExpressionAttributeNames` entry binds the condition placeholder
`#leaveId` to the identity value returned by `getLeaveId`, and that a
rejected conditional write or any other store error is caught by the
catch-all and answered with status 500. -/
def submissionHandler (inp : SubmitInput) (userId userName : String)
    (store : String → Option LeaveItem) (now : Int) : SubmitOutcome :=
  if inp.fromS = "" || inp.toS = "" then
    ⟨⟨400, "from and to are required", none⟩, [], []⟩
  else if !validateDate inp.fromS || !validateDate inp.toS then
    ⟨⟨400, "Invalid date format ex: (MM/DD/YYYY), (YYYY-MM-DD)", none⟩, [], []⟩
  else if jsGt (jsDateParse inp.fromS) (jsDateParse inp.toS) then
    ⟨⟨400, "from cannot be later than to", none⟩, [], []⟩
  else if jsLt (jsDateParse inp.fromS) (some now) then
    ⟨⟨400, "from date cannot be in the past", none⟩, [], []⟩
  else if userId = "" || userName = "" then
    ⟨⟨400, "Unauthorized entity", none⟩, [], []⟩
  else
    let fm := jsDateParse inp.fromS
    let tm := jsDateParse inp.toS
    let existing := store (getLeaveId userId fm tm)
    if (match existing with | some it => it.status == "PENDING" | none => false) then
      ⟨⟨409, "There is already a leave application for the given dates", none⟩, [], []⟩
    else
      let leaveObj : LeaveItem :=
        { leaveId := getLeaveId userId fm tm, fromDate := fm, toDate := tm,
          reason := inp.reason, status := "PENDING", appliedOn := now,
          applicantId := userId, applicantName := userName, task_token := none }
      if putRejected store leaveObj
          (getLeaveId leaveObj.applicantId leaveObj.fromDate leaveObj.toDate) then
        ⟨⟨500, "Internal server error", none⟩, [], []⟩
      else
        ⟨⟨201, "Leave application submitted", none⟩, [leaveObj],
         [⟨"request", jsTimeoutSeconds fm tm, leaveObj⟩]⟩

/-! ## Notification and transition handler (model of
`src/functions/notify_users.ts`) -/

/-- Model of JavaScript `toUpperCase` on the ASCII strings exchanged here:
uppercases each character. -/
def jsToUpper (s : String) : String := String.mk (s.data.map Char.toUpper)

/-- A row returned by the administrator-role query, represented by its
`email` attribute, the only one the handler reads. -/
structure AdminRow where
  email : String
deriving Repr, DecidableEq

/-- The `input` payload of a notification event. -/
structure NotifyInput where
  type : Option String
  applicantId : Option String
  applicantName : Option String
  fromDate : Option Int
  toDate : Option Int
deriving Repr, DecidableEq

/-- A notification event: the input payload plus the optional Step
Functions task token. -/
structure NotifyEvent where
  input : NotifyInput
  task_token : Option String := none
deriving Repr, DecidableEq

/-- One outbound email dispatch: its recipient list and subject. -/
structure EmailSend where
  recipients : List String
  subject : String
deriving Repr, DecidableEq

/-- A DynamoDB `UpdateCommand` as constructed by the handler: target key,
update expression, expression attribute values, and condition expression
(the source never sets one, so it is `none` on every command built). -/
structure UpdateCmd where
  key : String
  updateExpr : String
  values : List (String × String)
  condition : Option String := none
deriving Repr, DecidableEq

/-- The `NotificationResult` success/message pair. -/
structure NotifyResult where
  success : Bool
  message : String
deriving Repr, DecidableEq

/-- Observable outcome of the notification handler: the returned result or
thrown error name, the emails dispatched, and the update commands sent. -/
structure NotifyOutcome where
  result : Except String NotifyResult
  emails : List EmailSend
  updates : List UpdateCmd

/-- Model of the `notify_users` handler.  `adminQuery` is what the
administrator-role query returns (`none` for an absent `Items` array).
Email dispatch and the final update are modelled as succeeding; every
error the handler throws is returned as `Except.error` with its name, and
no email or update precedes any throw in the source. -/
def notifyHandler (ev : NotifyEvent) (adminQuery : Option (List AdminRow)) : NotifyOutcome :=
  if !strTruthy ev.input.type then ⟨.error "InvalidEvent", [], []⟩
  else if !strTruthy ev.input.applicantId || !strTruthy ev.input.applicantName
      || !ev.input.fromDate.isSome || !ev.input.toDate.isSome then
    ⟨.error "InvalidEvent", [], []⟩
  else
    let aid := (ev.input.applicantId).getD ""
    let leaveId := getLeaveId aid ev.input.fromDate ev.input.toDate
    let ty := jsToUpper (ev.input.type.getD "")
    if ty = "REQUEST" then
      if !strTruthy ev.task_token then ⟨.error "MissingTaskToken", [], []⟩
      else
        match adminQuery with
        | none => ⟨.error "NoAdminsFound", [], []⟩
        | some rows =>
          if rows.length = 0 then ⟨.error "NoAdminsFound", [], []⟩
          else
            let adminEmails := (rows.filter (fun r => r.email ≠ aid)).map (fun r => r.email)
            ⟨.ok ⟨true, "Admin notifications sent"⟩,
             [⟨adminEmails, "New Leave Application Submitted"⟩],
             [⟨leaveId, "SET task_token = :tt", [(":tt", ev.task_token.getD "")], none⟩]⟩
    else if ty = "ACCEPT" then
      ⟨.ok ⟨true, "Applicant notified of acceptance"⟩,
       [⟨[aid], "Leave Application Accepted"⟩],
       [⟨leaveId, "REMOVE task_token SET #status = :accepted", [(":accepted", "ACCEPTED")], none⟩]⟩
    else if ty = "REJECT" then
      ⟨.ok ⟨true, "Applicant notified of rejection"⟩,
       [⟨[aid], "Leave Application Rejected"⟩],
       [⟨leaveId, "REMOVE task_token SET #status = :accepted", [(":accepted", "REJECTED")], none⟩]⟩
    else ⟨.error "InvalidEvent", [], []⟩

/-- DynamoDB semantics of applying one of the handler update expressions
to an existing item: attach the token, or remove the token and set the
status.  `none` for an expression the model does not know. -/
def applyUpdateExpr (it : LeaveItem) (cmd : UpdateCmd) : Option LeaveItem :=
  if cmd.updateExpr = "SET task_token = :tt" then
    some { it with task_token := cmd.values.lookup ":tt" }
  else if cmd.updateExpr = "REMOVE task_token SET #status = :accepted" then
    some { it with task_token := none, status := (cmd.values.lookup ":accepted").getD "" }
  else none

/-! ## Decision resolver (model of the accept/reject handler, the second
function of `src/functions/leave_generate.ts`) -/

/-- A call made to the durable-execution engine: report success with an
outcome payload, or report failure with an error kind and cause.  The
payload fields are the type tag and the four identity and interval fields
read from the stored item. -/
inductive EngineCall where
  | taskSuccess (token : Option String) (type applicantId applicantName : String)
      (fromDate toDate : Option Int)
  | taskFailure (token : Option String) (error cause : String)
deriving Repr, DecidableEq

/-- Observable outcome of the decision resolver: the HTTP response, the
engine calls made, and the store writes performed (the source sends no
write command on any path, which the model records explicitly). -/
structure ResolveOutcome where
  response : Resp
  engineCalls : List EngineCall
  writes : List UpdateCmd
deriving Repr, DecidableEq

/-- Rendering of the `action` variable in a template literal: the segment
string, or `undefined` when the path had too few segments. -/
def actionText : Option String → String
  | some s => s
  | none => "undefined"

/-- Model of `path.split("/")[path.split("/").length - 2]`: the
next-to-last path segment, or `undefined` (`none`) when there is none. -/
def jsPathAction (path : String) : Option String :=
  let parts := (splitOnChar '/' path.data).map String.mk
  if parts.length < 2 then none else parts[parts.length - 2]?

/-- Model of the decision resolver.  `leaveIdParam` is the `leaveId` path
parameter, `store` the leave table.  Thrown errors are caught by the
handler and answered with status 500 carrying the error message. -/
def decisionResolver (path : String) (leaveIdParam : Option String)
    (store : String → Option LeaveItem) : ResolveOutcome :=
  if !strTruthy leaveIdParam then
    ⟨⟨500, "Internal server error", some "Missing leaveId in path parameters"⟩, [], []⟩
  else
    let leaveId := leaveIdParam.getD ""
    match store leaveId with
    | none =>
      ⟨⟨500, "Internal server error", some ("Leave with ID " ++ leaveId ++ " not found")⟩, [], []⟩
    | some item =>
      if item.status ≠ "PENDING" then
        ⟨⟨400, "Leave with ID " ++ leaveId ++ " has been already processed with status "
            ++ item.status, none⟩, [], []⟩
      else
        let action := jsPathAction path
        if action = some "reject" then
          ⟨⟨200, "Leave " ++ actionText action ++ "ed successfully", none⟩,
           [.taskSuccess item.task_token "REJECT" item.applicantId item.applicantName
              item.fromDate item.toDate], []⟩
        else if action = some "accept" then
          ⟨⟨200, "Leave " ++ actionText action ++ "ed successfully", none⟩,
           [.taskSuccess item.task_token "ACCEPT" item.applicantId item.applicantName
              item.fromDate item.toDate], []⟩
        else
          ⟨⟨400, "Invalid action: " ++ actionText action ++ ". Expected ACCEPT or REJECT.", none⟩,
           [.taskFailure item.task_token "InvalidAction"
              ("The action " ++ actionText action ++ " is not valid. Expected ACCEPT or REJECT.")], []⟩

/-- The URL segment embedded into the accept and reject links of the
REQUEST notification: model of `leaveId.split("#")[1]` interpolated into
the template literal (`undefined` when no second segment exists). -/
def urlSegment (id : String) : String :=
  match ((splitOnChar '#' id.data).map String.mk)[1]? with
  | some s => s
  | none => "undefined"

/-! ## Support lemmas -/


theorem getD_mem_or_default (l : List Char) (n : Nat) (d : Char) :
    l.getD n d ∈ l ∨ l.getD n d = d := by
  rw [List.getD_eq_getElem?_getD]
  cases h : l[n]? with
  | none => right; rfl
  | some c => left; simpa using List.getElem?_mem h

theorem b64Char_ne_hash (n : Nat) : b64Char n ≠ '#' := by
  intro h
  rcases getD_mem_or_default b64Alphabet n 'A' with hm | he
  · rw [b64Char] at h; rw [h] at hm; revert hm; decide
  · rw [b64Char] at h; rw [h] at he; revert he; decide

theorem b64Chars_no_hash : ∀ bs : List Nat, '#' ∉ b64Chars bs
  | [] => by simp [b64Chars]
  | [a] => by
    intro h
    simp only [b64Chars, List.mem_cons, List.not_mem_nil, or_false] at h
    rcases h with h | h <;> exact b64Char_ne_hash _ h.symm
  | [a, b] => by
    intro h
    simp only [b64Chars, List.mem_cons, List.not_mem_nil, or_false] at h
    rcases h with h | h | h <;> exact b64Char_ne_hash _ h.symm
  | a :: b :: c :: rest => by
    intro h
    simp only [b64Chars, List.mem_cons] at h
    rcases h with h | h | h | h | h
    · exact b64Char_ne_hash _ h.symm
    · exact b64Char_ne_hash _ h.symm
    · exact b64Char_ne_hash _ h.symm
    · exact b64Char_ne_hash _ h.symm
    · exact b64Chars_no_hash rest h



theorem splitOnChar_of_not_mem {c : Char} : ∀ {l : List Char}, c ∉ l → splitOnChar c l = [l]
  | [], _ => rfl
  | x :: xs, h => by
    have hx : x ≠ c := fun he => h (he ▸ List.mem_cons_self x xs)
    have hxs : c ∉ xs := fun hm => h (List.mem_cons_of_mem x hm)
    simp only [splitOnChar, if_neg hx, splitOnChar_of_not_mem hxs]

theorem splitOnChar_affix {c : Char} : ∀ (pre d : List Char), c ∉ pre → c ∉ d →
    splitOnChar c (pre ++ c :: d) = [pre, d]
  | [], d, _, hd => by
    simp [splitOnChar, splitOnChar_of_not_mem hd]
  | x :: pre, d, hp, hd => by
    have hx : x ≠ c := fun he => hp (he ▸ List.mem_cons_self x pre)
    have hpre : c ∉ pre := fun hm => hp (List.mem_cons_of_mem x hm)
    have ih := splitOnChar_affix pre d hpre hd
    simp only [List.cons_append, splitOnChar, if_neg hx, List.append_eq, ih]

theorem urlSegment_append (d : String) (hd : '#' ∉ d.data) :
    urlSegment ("LEAVE#" ++ d) = d := by
  have hdata : ("LEAVE#" ++ d).data = ['L', 'E', 'A', 'V', 'E'] ++ '#' :: d.data := by
    rw [String.data_append]; rfl
  rw [urlSegment, hdata, splitOnChar_affix _ _ (by decide) hd]
  cases d
  rfl

theorem append_LEAVE_ne (s : String) : "LEAVE#" ++ s ≠ s := by
  intro h
  have := congrArg String.length h
  rw [String.length_append] at this
  have h6 : ("LEAVE#" : String).length = 6 := rfl
  omega

theorem digest_chars_ne_nil : ∀ (h8 : Hash8), b64Chars (digestBytes h8) ≠ [] := by
  intro h8
  simp [digestBytes, wordBytes, b64Chars]

theorem getLeaveId_eq (a : String) (f t : Option Int) :
    getLeaveId a f t = "LEAVE#" ++ base64urlEncode (sha256 (utf8Bytes
      (a ++ "-" ++ jsNumString f ++ "-" ++ jsNumString t))) := rfl

theorem urlSegment_getLeaveId (a : String) (f t : Option Int) :
    urlSegment (getLeaveId a f t) = base64urlEncode (sha256 (utf8Bytes
      (a ++ "-" ++ jsNumString f ++ "-" ++ jsNumString t))) := by
  rw [getLeaveId_eq]
  exact urlSegment_append _ (b64Chars_no_hash _)

theorem base64_sha_ne_empty (msg : List Nat) : base64urlEncode (sha256 msg) ≠ "" := by
  rw [base64urlEncode, sha256]
  intro h
  exact digest_chars_ne_nil _ (congrArg String.data h)

theorem contains_LEAVE_eq_false (it : LeaveItem) (s : String) :
    (leaveItemAttrNames it).contains ("LEAVE#" ++ s) = false := by
  have key : ∀ t : String, t.data.head? ≠ some 'L' → ¬("LEAVE#" ++ s = t) := by
    intro t ht he
    apply ht
    rw [← he, String.data_append]
    rfl
  rw [← Bool.not_eq_true, List.contains, List.elem_eq_mem, decide_eq_true_eq]
  intro hm
  cases htt : it.task_token with
  | none =>
    rw [leaveItemAttrNames, htt] at hm
    simp only [List.append_nil, List.mem_cons, List.not_mem_nil, or_false] at hm
    rcases hm with h | h | h | h | h | h | h | h <;> exact key _ (by decide) h
  | some tok =>
    rw [leaveItemAttrNames, htt] at hm
    simp only [List.mem_append, List.mem_cons, List.mem_singleton, List.not_mem_nil,
      or_false] at hm
    rcases hm with (h | h | h | h | h | h | h | h) | h <;> exact key _ (by decide) h


end LeaveTracker

namespace LeaveTracker

/-- C5: a decision call whose identity resolves to a stored record with a
status different from PENDING returns the already-processed response
carrying that status, makes no call to the durable-execution engine, and
performs no store write. -/
theorem c5_already_processed_no_engine_call
    (path k : String) (store : String → Option LeaveItem) (item : LeaveItem)
    (hk : k ≠ "") (hs : store k = some item) (hp : item.status ≠ "PENDING") :
    decisionResolver path (some k) store =
      ⟨⟨400, "Leave with ID " ++ k ++ " has been already processed with status "
          ++ item.status, none⟩, [], []⟩ := by
  have h1 : strTruthy (some k) = true := by simp [strTruthy, hk]
  simp only [decisionResolver, h1, Bool.not_true, Bool.false_eq_true, if_false,
    Option.getD_some, hs, if_pos hp]

/-- Witness for `c5_already_processed_no_engine_call` at a concrete
ACCEPTED record. -/
theorem c5_witness :
    decisionResolver "/leave/reject/someId" (some "someId")
      (fun k => if k = "someId" then
        some ⟨"someId", some 100, some 200, "", "ACCEPTED", 0, "u@x.com", "U", none⟩
       else none) =
      ⟨⟨400, "Leave with ID " ++ "someId" ++ " has been already processed with status "
          ++ "ACCEPTED", none⟩, [], []⟩ :=
  c5_already_processed_no_engine_call "/leave/reject/someId" "someId" _
    ⟨"someId", some 100, some 200, "", "ACCEPTED", 0, "u@x.com", "U", none⟩
    (by decide) (by simp) (by decide)

/-- C10: the submission handler never reads the `fromTime`/`toTime` body
fields, so its entire outcome, in particular the stored
`fromDate`/`toDate` instants and the derived `leaveId`, is unchanged when
those fields are replaced by any other values. -/
theorem c10_times_never_incorporated
    (fromS toS reason t1 t2 t3 t4 userId userName : String)
    (store : String → Option LeaveItem) (now : Int) :
    submissionHandler ⟨fromS, toS, reason, t1, t2⟩ userId userName store now =
      submissionHandler ⟨fromS, toS, reason, t3, t4⟩ userId userName store now := rfl

end LeaveTracker

namespace LeaveTracker

/-- C8: submitting a triple whose derived identity already holds a stored
PENDING record yields the 409 conflict response with no write and no saga
start; the first submission of that triple on an empty store succeeds with
201 and stores exactly the record whose identity the second call hits. -/
theorem c8_duplicate_pending_conflict
    (inp : SubmitInput) (userId userName : String) (now : Int) (f t : Int)
    (h1 : jsDateParse inp.fromS = some f) (h2 : jsDateParse inp.toS = some t)
    (hord : ¬ f > t) (hpast : ¬ f < now)
    (hu : userId ≠ "") (hn : userName ≠ "") :
    ∃ item : LeaveItem,
      (submissionHandler inp userId userName (fun _ => none) now).response.statusCode = 201 ∧
      (submissionHandler inp userId userName (fun _ => none) now).puts = [item] ∧
      item.status = "PENDING" ∧ item.leaveId = getLeaveId userId (some f) (some t) ∧
      (submissionHandler inp userId userName
          (fun k => if k = item.leaveId then some item else none) now).response.statusCode = 409 ∧
      (submissionHandler inp userId userName
          (fun k => if k = item.leaveId then some item else none) now).puts = [] ∧
      (submissionHandler inp userId userName
          (fun k => if k = item.leaveId then some item else none) now).starts = [] := by
  have hf : inp.fromS ≠ "" := by
    intro he; rw [he] at h1; simp [jsDateParse] at h1
  have ht : inp.toS ≠ "" := by
    intro he; rw [he] at h2; simp [jsDateParse] at h2
  have hvf : validateDate inp.fromS = true := by simp [validateDate, h1]
  have hvt : validateDate inp.toS = true := by simp [validateDate, h2]
  have hgt : jsGt (some f) (some t) = false := by
    simp only [jsGt]; simpa using hord
  have hlt : jsLt (some f) (some now) = false := by
    simp only [jsLt]; simpa using hpast
  refine ⟨{ leaveId := getLeaveId userId (some f) (some t), fromDate := some f,
            toDate := some t, reason := inp.reason, status := "PENDING",
            appliedOn := now, applicantId := userId, applicantName := userName,
            task_token := none }, ?_, ?_, rfl, rfl, ?_, ?_, ?_⟩ <;>
    simp [submissionHandler, hf, ht, hu, hn, hvf, hvt, hgt, hlt, h1, h2, putRejected]

end LeaveTracker

namespace LeaveTracker

/-- C2: the claim fails on the code.  The accept/reject URLs embed
`leaveId.split("#")[1]`, the bare digest without the `LEAVE#` prefix, but
the resolver uses that path segment directly as the store key, while the
record is stored under the full prefixed identity; for every stored
record, the lookup therefore misses and the resolver answers 500
not-found instead of resolving the record. -/
theorem c2_action_url_lookup_misses (a : String) (f t : Option Int)
    (item : LeaveItem) (path : String) :
    decisionResolver path (some (urlSegment (getLeaveId a f t)))
        (fun k => if k = getLeaveId a f t then some item else none) =
      ⟨⟨500, "Internal server error",
         some ("Leave with ID " ++ urlSegment (getLeaveId a f t) ++ " not found")⟩, [], []⟩ := by
  have hseg : urlSegment (getLeaveId a f t) =
      base64urlEncode (sha256 (utf8Bytes (a ++ "-" ++ jsNumString f ++ "-" ++ jsNumString t))) :=
    urlSegment_getLeaveId a f t
  have hne : base64urlEncode (sha256 (utf8Bytes
      (a ++ "-" ++ jsNumString f ++ "-" ++ jsNumString t))) ≠ "" := base64_sha_ne_empty _
  have htr : strTruthy (some (base64urlEncode (sha256 (utf8Bytes
      (a ++ "-" ++ jsNumString f ++ "-" ++ jsNumString t))))) = true := by
    simp [strTruthy, hne]
  have hmiss : base64urlEncode (sha256 (utf8Bytes
      (a ++ "-" ++ jsNumString f ++ "-" ++ jsNumString t))) ≠ getLeaveId a f t := by
    rw [getLeaveId_eq]
    exact fun h => append_LEAVE_ne _ h.symm
  rw [hseg]
  simp only [decisionResolver, htr, Bool.not_true, Bool.false_eq_true, if_false,
    Option.getD_some, if_neg hmiss]

end LeaveTracker

namespace LeaveTracker

set_option maxRecDepth 8192 in
/-- C1: the claim fails on the code.  With a record of the same derived
identity already stored (here with status ACCEPTED), the conditional
create is not rejected: the `ExpressionAttributeNames` entry binds the
condition placeholder to the identity value, an attribute name no item
carries, so `attribute_not_exists` passes, the put overwrites the
existing record and the submission answers 201 instead of Conflict. -/
theorem c1_conditional_create_defeated :
    (submissionHandler ⟨"2026-01-10", "2026-01-12", "", "", ""⟩ "user@example.com" "User"
        (fun k => if k = getLeaveId "user@example.com" (some 1768003200000) (some 1768176000000)
          then some ⟨getLeaveId "user@example.com" (some 1768003200000) (some 1768176000000),
                     some 1768003200000, some 1768176000000, "", "ACCEPTED", 0,
                     "user@example.com", "User", none⟩
          else none) 0).response.statusCode = 201 ∧
    (submissionHandler ⟨"2026-01-10", "2026-01-12", "", "", ""⟩ "user@example.com" "User"
        (fun k => if k = getLeaveId "user@example.com" (some 1768003200000) (some 1768176000000)
          then some ⟨getLeaveId "user@example.com" (some 1768003200000) (some 1768176000000),
                     some 1768003200000, some 1768176000000, "", "ACCEPTED", 0,
                     "user@example.com", "User", none⟩
          else none) 0).puts.length = 1 := by
  have h1 : jsDateParse "2026-01-10" = some 1768003200000 := by decide
  have h2 : jsDateParse "2026-01-12" = some 1768176000000 := by decide
  have hvf : validateDate "2026-01-10" = true := by simp [validateDate, h1]
  have hvt : validateDate "2026-01-12" = true := by simp [validateDate, h2]
  have hgt : jsGt (some (1768003200000 : Int)) (some 1768176000000) = false := by
    simp only [jsGt]; norm_num
  have hlt : jsLt (some (1768003200000 : Int)) (some 0) = false := by
    simp only [jsLt]; norm_num
  have hrej : ∀ it : LeaveItem,
      getLeaveId "user@example.com" (some 1768003200000) (some 1768176000000)
        ∉ leaveItemAttrNames it := by
    intro it hm
    rw [getLeaveId_eq, ← List.elem_iff] at hm
    have hm2 : (leaveItemAttrNames it).contains ("LEAVE#" ++ base64urlEncode (sha256 (utf8Bytes
        ("user@example.com" ++ "-" ++ jsNumString (some 1768003200000) ++ "-"
          ++ jsNumString (some 1768176000000))))) = true := hm
    rw [contains_LEAVE_eq_false it] at hm2
    exact Bool.false_ne_true hm2
  constructor <;>
    simp [submissionHandler, hvf, hvt, h1, h2, hgt, hlt, putRejected, hrej]

end LeaveTracker

namespace LeaveTracker

/-- C9: every submission answered 201 started exactly one saga execution,
and its timeout is the requested duration in seconds, floor of
`(toInstant - fromInstant) / 1000`; since the ordering rule already
guarantees `fromInstant ≤ toInstant` on this path, that value coincides
with the zero-clamped duration `max 0 _`, and a zero duration (point
request) passes through without error. -/
theorem c9_saga_timeout_duration
    (inp : SubmitInput) (userId userName : String)
    (store : String → Option LeaveItem) (now : Int)
    (h201 : (submissionHandler inp userId userName store now).response.statusCode = 201) :
    ∃ (f t : Int) (item : LeaveItem),
      jsDateParse inp.fromS = some f ∧ jsDateParse inp.toS = some t ∧ f ≤ t ∧
      (submissionHandler inp userId userName store now).starts =
        [⟨"request", some (max 0 (Int.fdiv (t - f) 1000)), item⟩] := by
  rw [submissionHandler] at h201
  split at h201
  · simp at h201
  next hreq =>
  split at h201
  · simp at h201
  next hval =>
  obtain ⟨f, hf⟩ : ∃ f, jsDateParse inp.fromS = some f := by
    rcases h : jsDateParse inp.fromS with _ | f
    · exfalso; apply hval; simp [validateDate, h]
    · exact ⟨f, rfl⟩
  obtain ⟨t, ht⟩ : ∃ t, jsDateParse inp.toS = some t := by
    rcases h : jsDateParse inp.toS with _ | t
    · exfalso; apply hval; simp [validateDate, h]
    · exact ⟨t, rfl⟩
  split at h201
  · simp at h201
  next hord =>
  split at h201
  · simp at h201
  next hpast =>
  split at h201
  · simp at h201
  next hauth =>
  dsimp only at h201
  split at h201
  · simp at h201
  next hdup =>
  split at h201
  · simp at h201
  next hput =>
  have hle : f ≤ t := by
    rw [hf, ht] at hord
    simp only [jsGt, decide_eq_true_eq] at hord
    omega
  have hmax : max 0 (Int.fdiv (t - f) 1000) = Int.fdiv (t - f) 1000 := by
    have : 0 ≤ Int.fdiv (t - f) 1000 := Int.fdiv_nonneg (by omega) (by norm_num)
    omega
  refine ⟨f, t,
    { leaveId := getLeaveId userId (some f) (some t), fromDate := some f, toDate := some t,
      reason := inp.reason, status := "PENDING", appliedOn := now, applicantId := userId,
      applicantName := userName, task_token := none }, hf, ht, hle, ?_⟩
  rw [submissionHandler]
  rw [if_neg hreq, if_neg hval, if_neg hord, if_neg hpast, if_neg hauth]
  dsimp only
  rw [if_neg hdup, if_neg hput]
  dsimp only
  rw [hf, ht, hmax]
  rfl

end LeaveTracker

namespace LeaveTracker

/-- Witness for `c8_duplicate_pending_conflict` at the spec scenario:
applicant submits 2026-01-10 to 2026-01-12, first call 201, identical
second call 409 with no write. -/
theorem c8_witness :
    jsDateParse "2026-01-10" = some 1768003200000 ∧
    jsDateParse "2026-01-12" = some 1768176000000 ∧
    ¬ (1768003200000 : Int) > 1768176000000 ∧ ¬ (1768003200000 : Int) < 0 ∧
    ∃ item : LeaveItem,
      (submissionHandler ⟨"2026-01-10", "2026-01-12", "", "", ""⟩ "user@example.com" "User"
        (fun _ => none) 0).response.statusCode = 201 ∧
      (submissionHandler ⟨"2026-01-10", "2026-01-12", "", "", ""⟩ "user@example.com" "User"
        (fun _ => none) 0).puts = [item] ∧
      item.status = "PENDING" ∧
      item.leaveId = getLeaveId "user@example.com" (some 1768003200000) (some 1768176000000) ∧
      (submissionHandler ⟨"2026-01-10", "2026-01-12", "", "", ""⟩ "user@example.com" "User"
        (fun k => if k = item.leaveId then some item else none) 0).response.statusCode = 409 ∧
      (submissionHandler ⟨"2026-01-10", "2026-01-12", "", "", ""⟩ "user@example.com" "User"
        (fun k => if k = item.leaveId then some item else none) 0).puts = [] ∧
      (submissionHandler ⟨"2026-01-10", "2026-01-12", "", "", ""⟩ "user@example.com" "User"
        (fun k => if k = item.leaveId then some item else none) 0).starts = [] :=
  ⟨by decide, by decide, by decide, by decide,
   c8_duplicate_pending_conflict ⟨"2026-01-10", "2026-01-12", "", "", ""⟩
     "user@example.com" "User" 0 1768003200000 1768176000000
     (by decide) (by decide) (by decide) (by decide) (by decide) (by decide)⟩

/-- Witness for `c9_saga_timeout_duration` at a point request (equal from
and to dates, duration zero): the guard does not crash and starts the saga
with that timeout. -/
theorem c9_witness :
    (submissionHandler ⟨"2026-01-10", "2026-01-10", "", "", ""⟩ "user@example.com" "User"
      (fun _ => none) 0).response.statusCode = 201 ∧
    ∃ (f t : Int) (item : LeaveItem),
      jsDateParse "2026-01-10" = some f ∧ jsDateParse "2026-01-10" = some t ∧ f ≤ t ∧
      (submissionHandler ⟨"2026-01-10", "2026-01-10", "", "", ""⟩ "user@example.com" "User"
        (fun _ => none) 0).starts =
          [⟨"request", some (max 0 (Int.fdiv (t - f) 1000)), item⟩] :=
  ⟨by decide,
   c9_saga_timeout_duration ⟨"2026-01-10", "2026-01-10", "", "", ""⟩ "user@example.com" "User"
     (fun _ => none) 0 (by decide)⟩

end LeaveTracker

namespace LeaveTracker

/-- C3 counterexample: the terminal transition is a blind write.  The
update command generated for a REJECT event carries no condition
expression, and applying it to a record already in the terminal status
ACCEPTED succeeds and overwrites the status with REJECTED instead of
being rejected. -/
theorem c3_counterexample_blind_terminal_write :
    (notifyHandler ⟨⟨some "REJECT", some "user@example.com", some "U", some 100, some 200⟩,
        none⟩ none).updates =
      [⟨getLeaveId "user@example.com" (some 100) (some 200),
        "REMOVE task_token SET #status = :accepted", [(":accepted", "REJECTED")], none⟩] ∧
    applyUpdateExpr
      ⟨"id1", some 100, some 200, "", "ACCEPTED", 0, "user@example.com", "U", none⟩
      ⟨getLeaveId "user@example.com" (some 100) (some 200),
        "REMOVE task_token SET #status = :accepted", [(":accepted", "REJECTED")], none⟩ =
      some ⟨"id1", some 100, some 200, "", "REJECTED", 0, "user@example.com", "U", none⟩ := by
  constructor
  · have hR : jsToUpper "REJECT" = "REJECT" := by decide
    simp [notifyHandler, strTruthy, hR]
  · simp [applyUpdateExpr]

/-- C3 amended: the handler writes the terminal status through an
unconditional update command (no condition on the prior status), which,
applied to a record of any prior status, removes the token and sets the
terminal status; duplicate decisions are filtered only by the resolver
status check, not by this write. -/
theorem c3_terminal_update_unconditional
    (aid aname : String) (f t : Int) (tok : Option String) (q : Option (List AdminRow))
    (ha : aid ≠ "") (hn : aname ≠ "") :
    (notifyHandler ⟨⟨some "ACCEPT", some aid, some aname, some f, some t⟩, tok⟩ q).updates =
      [⟨getLeaveId aid (some f) (some t), "REMOVE task_token SET #status = :accepted",
        [(":accepted", "ACCEPTED")], none⟩] ∧
    (notifyHandler ⟨⟨some "REJECT", some aid, some aname, some f, some t⟩, tok⟩ q).updates =
      [⟨getLeaveId aid (some f) (some t), "REMOVE task_token SET #status = :accepted",
        [(":accepted", "REJECTED")], none⟩] ∧
    (∀ (it : LeaveItem) (v : String),
      applyUpdateExpr it ⟨getLeaveId aid (some f) (some t),
          "REMOVE task_token SET #status = :accepted", [(":accepted", v)], none⟩ =
        some { it with task_token := none, status := v }) := by
  have hA : jsToUpper "ACCEPT" = "ACCEPT" := by decide
  have hR : jsToUpper "REJECT" = "REJECT" := by decide
  refine ⟨?_, ?_, ?_⟩
  · simp [notifyHandler, strTruthy, ha, hn, hA]
  · simp [notifyHandler, strTruthy, ha, hn, hR]
  · intro it v
    simp [applyUpdateExpr]

/-- Witness for `c3_terminal_update_unconditional` at concrete inputs. -/
theorem c3_witness :
    (notifyHandler ⟨⟨some "ACCEPT", some "u@x.com", some "U", some 100, some 200⟩, none⟩
        none).updates =
      [⟨getLeaveId "u@x.com" (some 100) (some 200), "REMOVE task_token SET #status = :accepted",
        [(":accepted", "ACCEPTED")], none⟩] ∧
    (notifyHandler ⟨⟨some "REJECT", some "u@x.com", some "U", some 100, some 200⟩, none⟩
        none).updates =
      [⟨getLeaveId "u@x.com" (some 100) (some 200), "REMOVE task_token SET #status = :accepted",
        [(":accepted", "REJECTED")], none⟩] ∧
    (∀ (it : LeaveItem) (v : String),
      applyUpdateExpr it ⟨getLeaveId "u@x.com" (some 100) (some 200),
          "REMOVE task_token SET #status = :accepted", [(":accepted", v)], none⟩ =
        some { it with task_token := none, status := v }) :=
  c3_terminal_update_unconditional "u@x.com" "U" 100 200 none none
    (by decide) (by decide)

end LeaveTracker

namespace LeaveTracker

/-- C4 counterexample: the empty-audience rule is checked before the
applicant is excluded.  When the only administrator account is the
applicant, the resolved audience is empty, yet the handler does not fail:
it reports success, dispatches the notification with an empty recipient
list, and attaches the continuation token. -/
theorem c4_counterexample_applicant_only_admin :
    (notifyHandler ⟨⟨some "REQUEST", some "admin@example.com", some "A", some 100, some 200⟩,
        some "tok-1"⟩ (some [⟨"admin@example.com"⟩])).result.toOption =
      some ⟨true, "Admin notifications sent"⟩ ∧
    (notifyHandler ⟨⟨some "REQUEST", some "admin@example.com", some "A", some 100, some 200⟩,
        some "tok-1"⟩ (some [⟨"admin@example.com"⟩])).emails =
      [⟨[], "New Leave Application Submitted"⟩] ∧
    (notifyHandler ⟨⟨some "REQUEST", some "admin@example.com", some "A", some 100, some 200⟩,
        some "tok-1"⟩ (some [⟨"admin@example.com"⟩])).updates.map
      (fun u => (u.updateExpr, u.values)) =
      [("SET task_token = :tt", [(":tt", "tok-1")])] := by
  have hU : jsToUpper "REQUEST" = "REQUEST" := by decide
  refine ⟨?_, ?_, ?_⟩ <;> simp [notifyHandler, strTruthy, hU, Except.toOption]

/-- C4 amended: the handler fails with NoAdminsFound, dispatching nothing
and attaching no token, exactly when the raw administrator query comes
back absent or empty; when rows exist but the applicant exclusion empties
the audience, it instead proceeds, dispatching an empty-recipient
notification and attaching the continuation token. -/
theorem c4_empty_admin_query_fails
    (aid aname tok : String) (f t : Int)
    (ha : aid ≠ "") (hn : aname ≠ "") (htok : tok ≠ "") :
    ((notifyHandler ⟨⟨some "REQUEST", some aid, some aname, some f, some t⟩, some tok⟩
        none).result = .error "NoAdminsFound" ∧
     (notifyHandler ⟨⟨some "REQUEST", some aid, some aname, some f, some t⟩, some tok⟩
        none).emails = [] ∧
     (notifyHandler ⟨⟨some "REQUEST", some aid, some aname, some f, some t⟩, some tok⟩
        none).updates = []) ∧
    ((notifyHandler ⟨⟨some "REQUEST", some aid, some aname, some f, some t⟩, some tok⟩
        (some [])).result = .error "NoAdminsFound" ∧
     (notifyHandler ⟨⟨some "REQUEST", some aid, some aname, some f, some t⟩, some tok⟩
        (some [])).emails = [] ∧
     (notifyHandler ⟨⟨some "REQUEST", some aid, some aname, some f, some t⟩, some tok⟩
        (some [])).updates = []) ∧
    (∀ rows : List AdminRow, rows ≠ [] → rows.filter (fun r => r.email ≠ aid) = [] →
      (notifyHandler ⟨⟨some "REQUEST", some aid, some aname, some f, some t⟩, some tok⟩
          (some rows)).result.toOption = some ⟨true, "Admin notifications sent"⟩ ∧
      (notifyHandler ⟨⟨some "REQUEST", some aid, some aname, some f, some t⟩, some tok⟩
          (some rows)).emails = [⟨[], "New Leave Application Submitted"⟩] ∧
      (notifyHandler ⟨⟨some "REQUEST", some aid, some aname, some f, some t⟩, some tok⟩
          (some rows)).updates =
        [⟨getLeaveId aid (some f) (some t), "SET task_token = :tt", [(":tt", tok)], none⟩]) := by
  have hU : jsToUpper "REQUEST" = "REQUEST" := by decide
  refine ⟨?_, ?_, ?_⟩
  · refine ⟨?_, ?_, ?_⟩ <;> simp [notifyHandler, strTruthy, ha, hn, htok, hU]
  · refine ⟨?_, ?_, ?_⟩ <;> simp [notifyHandler, strTruthy, ha, hn, htok, hU]
  · intro rows hne hfil
    have hfil2 : ∀ a ∈ rows, a.email = aid := by simpa using hfil
    refine ⟨?_, ?_, ?_⟩ <;>
      simp [notifyHandler, strTruthy, ha, hn, htok, hU, hne, Except.toOption]
    exact hfil2

/-- Witness for `c4_empty_admin_query_fails` at concrete inputs, including
the applicant-only-admin audience case. -/
theorem c4_witness :
    ((notifyHandler ⟨⟨some "REQUEST", some "a@x.com", some "A", some 100, some 200⟩,
        some "tok"⟩ none).result = .error "NoAdminsFound" ∧
     (notifyHandler ⟨⟨some "REQUEST", some "a@x.com", some "A", some 100, some 200⟩,
        some "tok"⟩ none).emails = [] ∧
     (notifyHandler ⟨⟨some "REQUEST", some "a@x.com", some "A", some 100, some 200⟩,
        some "tok"⟩ none).updates = []) ∧
    ((notifyHandler ⟨⟨some "REQUEST", some "a@x.com", some "A", some 100, some 200⟩,
        some "tok"⟩ (some [])).result = .error "NoAdminsFound" ∧
     (notifyHandler ⟨⟨some "REQUEST", some "a@x.com", some "A", some 100, some 200⟩,
        some "tok"⟩ (some [])).emails = [] ∧
     (notifyHandler ⟨⟨some "REQUEST", some "a@x.com", some "A", some 100, some 200⟩,
        some "tok"⟩ (some [])).updates = []) ∧
    (∀ rows : List AdminRow, rows ≠ [] → rows.filter (fun r => r.email ≠ "a@x.com") = [] →
      (notifyHandler ⟨⟨some "REQUEST", some "a@x.com", some "A", some 100, some 200⟩,
          some "tok"⟩ (some rows)).result.toOption = some ⟨true, "Admin notifications sent"⟩ ∧
      (notifyHandler ⟨⟨some "REQUEST", some "a@x.com", some "A", some 100, some 200⟩,
          some "tok"⟩ (some rows)).emails = [⟨[], "New Leave Application Submitted"⟩] ∧
      (notifyHandler ⟨⟨some "REQUEST", some "a@x.com", some "A", some 100, some 200⟩,
          some "tok"⟩ (some rows)).updates =
        [⟨getLeaveId "a@x.com" (some 100) (some 200), "SET task_token = :tt",
          [(":tt", "tok")], none⟩]) :=
  c4_empty_admin_query_fails "a@x.com" "A" "tok" 100 200
    (by decide) (by decide) (by decide)

end LeaveTracker

namespace LeaveTracker

/-- C6 counterexample: with a `fromTime` given, the time-aware from
instant (23:00 of 1970-01-01, which is 82800000) is not before now
(3600000), so by the claim the check must pass; the code nevertheless
fails it, because the date-only midnight value is also compared against
now even when a `fromTime` was given. -/
theorem c6_counterexample_dateonly_check_with_time :
    validateNotPast "1970-01-01" (some "23:00") 3600000 =
      ⟨false, some "from date and time cannot be in the past"⟩ ∧
    jsSetHours (jsDateParse "1970-01-01") (timeParts "23:00").1 (timeParts "23:00").2 0 0 =
      some 82800000 ∧
    ¬ (82800000 : Int) < 3600000 := by
  refine ⟨?_, by decide, by decide⟩
  decide

/-- C6 amended: when a truthy `fromTime` is given, the check fails exactly
when the time-aware from instant is strictly before now or the date-only
from value is strictly before now: both comparisons apply, not only the
time-aware one. -/
theorem c6_not_past_both_checks
    (fromS ts : String) (f now : Int)
    (hf : jsDateParse fromS = some f) (hts : ts ≠ "") :
    (validateNotPast fromS (some ts) now).valid = false ↔
      (jsLt (jsSetHours (some f) (timeParts ts).1 (timeParts ts).2 0 0) (some now) = true
        ∨ f < now) := by
  have htr : strTruthy (some ts) = true := by simp [strTruthy, hts]
  rw [validateNotPast, hf]
  simp only [Option.getD_some, htr, Bool.true_and]
  by_cases h1 : jsLt (jsSetHours (some f) (timeParts ts).1 (timeParts ts).2 0 0)
      (some now) = true
  · simp [h1]
  · simp only [Bool.not_eq_true] at h1
    have hsecond : jsLt (some f) (some now) = decide (f < now) := rfl
    by_cases h2 : f < now
    · simp [h1, hsecond, h2]
    · simp [h1, hsecond, h2]

end LeaveTracker

namespace LeaveTracker

/-- Witness for `c6_not_past_both_checks` at the counterexample input. -/
theorem c6_witness :
    jsDateParse "1970-01-01" = some 0 ∧ ("23:00" : String) ≠ "" ∧
    ((validateNotPast "1970-01-01" (some "23:00") 3600000).valid = false ↔
      (jsLt (jsSetHours (some 0) (timeParts "23:00").1 (timeParts "23:00").2 0 0)
          (some 3600000) = true ∨ (0 : Int) < 3600000)) :=
  ⟨by decide, by decide,
   c6_not_past_both_checks "1970-01-01" "23:00" 0 3600000 (by decide) (by decide)⟩

/-- C7 counterexample: a submission carrying the malformed time `99:99`
(rejected by `validateTime`) is nevertheless accepted with 201: the
submission handler never applies the time-format rule, because it
destructures and then ignores `fromTime`/`toTime`. -/
theorem c7_counterexample_handler_ignores_time :
    validateTime "99:99" = false ∧
    (submissionHandler ⟨"2026-01-10", "2026-01-12", "", "99:99", ""⟩ "user@example.com" "User"
      (fun _ => none) 0).response.statusCode = 201 := by
  exact ⟨by decide, by decide⟩

/-- C7 amended: the validator `validateDateInputs` applies the rules in
the specified order with the first failure winning, and a supplied
non-HH:MM `fromTime` fails it with the invalid-time-format message once
the date-format rule has passed; but the submission handler does not
invoke this validator and ignores the time fields entirely, so its
outcome never depends on them. -/
theorem c7_validator_time_format_order
    (fromS toS ft : String) (tt : Option String) (now : Int)
    (hvf : validateDate fromS = true) (hvt : validateDate toS = true)
    (hft : ft ≠ "") (hbad : validateTime ft = false) :
    validateDateInputs fromS toS (some ft) tt now =
      ⟨false, some "Invalid fromTime format. Expected HH:MM in 24-hour format."⟩ ∧
    (∀ (reason t1 t2 t3 t4 uid uname : String) (store : String → Option LeaveItem),
      submissionHandler ⟨fromS, toS, reason, t1, t2⟩ uid uname store now =
        submissionHandler ⟨fromS, toS, reason, t3, t4⟩ uid uname store now) := by
  constructor
  · have hform : validateDateAndFormat fromS toS (some ft) tt =
        ⟨false, some "Invalid fromTime format. Expected HH:MM in 24-hour format."⟩ := by
      simp [validateDateAndFormat, hvf, hvt, strTruthy, hft, hbad]
    simp [validateDateInputs, hform]
  · intro reason t1 t2 t3 t4 uid uname store
    rfl

/-- Witness for `c7_validator_time_format_order` at the malformed time
`99:99` with valid dates. -/
theorem c7_witness :
    validateDate "2026-01-10" = true ∧ validateDate "2026-01-12" = true ∧
    validateTime "99:99" = false ∧
    (validateDateInputs "2026-01-10" "2026-01-12" (some "99:99") none 0 =
      ⟨false, some "Invalid fromTime format. Expected HH:MM in 24-hour format."⟩ ∧
    (∀ (reason t1 t2 t3 t4 uid uname : String) (store : String → Option LeaveItem),
      submissionHandler ⟨"2026-01-10", "2026-01-12", reason, t1, t2⟩ uid uname store 0 =
        submissionHandler ⟨"2026-01-10", "2026-01-12", reason, t3, t4⟩ uid uname store 0)) :=
  ⟨by decide, by decide, by decide,
   c7_validator_time_format_order "2026-01-10" "2026-01-12" "99:99" none 0
     (by decide) (by decide) (by decide) (by decide)⟩

end LeaveTracker
